import Mathlib

/-!
Verification development for the NAMASTE / ICD-11 terminology-mapping service.

The definitions below are shallow embeddings of the TypeScript source:
  - a small JSON value model for the untrusted Bundle payloads,
  - the Bundle validator of server/services/terminology.ts (validateFHIRBundle),
  - the FHIR resource builders of the fhir helper module
    (createFHIRValueSetExpansion, createFHIRTranslationResult,
     createFHIRCondition, createFHIRBundle),
  - the storage lookups (MemStorage.getMappingsForCode and
    DatabaseStorage.getConceptMappings) and the translate / search
    resolution built on them.

Impure ingredients of the source (fresh UUIDs, timestamps, the Gemini
provider call) are passed in as explicit parameters; database timestamps
(createdAt fields) are not modelled since no inspected behaviour reads them.
-/

/-- JSON-like values, modelling the untyped JavaScript objects the service
passes around.  Numbers are modelled as integers (no float behaviour is
inspected by the embedded code). -/
inductive Json where
  | null : Json
  | bool : Bool → Json
  | num : Int → Json
  | str : String → Json
  | arr : List Json → Json
  | obj : List (String × Json) → Json

/-- Field access on a JavaScript object: absent on non-objects, first
matching key otherwise. -/
def Json.get (j : Json) (k : String) : Option Json :=
  match j with
  | .obj fields => fields.lookup k
  | _ => none

/-- JavaScript truthiness of a value. -/
def jsTruthy (j : Json) : Bool :=
  match j with
  | .null => false
  | .bool b => b
  | .num n => !(n == 0)
  | .str s => !(s == "")
  | .arr _ => true
  | .obj _ => true

/-- JavaScript truthiness of a possibly-absent field (undefined is falsy). -/
def jsTruthyOpt (j : Option Json) : Bool :=
  match j with
  | none => false
  | some v => jsTruthy v

/-- String-valued field access, absent when the field is missing or not a
string. -/
def Json.getStr (j : Json) (k : String) : Option String :=
  match j.get k with
  | some (.str s) => some s
  | _ => none

/-- Elements of an array value; the embedded loops only iterate fields that
are arrays. -/
def Json.asArr (j : Json) : List Json :=
  match j with
  | .arr xs => xs
  | _ => []

/-- Whether the first character list starts the second. -/
def charsPrefixOf : List Char → List Char → Bool
  | [], _ => true
  | _ :: _, [] => false
  | a :: as, b :: bs => a == b && charsPrefixOf as bs

/-- Whether the first character list occurs contiguously in the second. -/
def charsSearch (sub : List Char) : List Char → Bool
  | [] => charsPrefixOf sub []
  | c :: rest => charsPrefixOf sub (c :: rest) || charsSearch sub rest

/-- JavaScript String.prototype.includes: substring containment. -/
def strIncludes (s sub : String) : Bool :=
  charsSearch sub.toList s.toList

/-- Summary counters returned by the Bundle validator. -/
structure ValidationSummary where
  resources : Nat
  conditions : Nat
  namasteCodes : Nat
  icd11Codes : Nat
deriving DecidableEq, Repr

/-- Result of the Bundle validator.  The source returns the errors and
warnings arrays only when non-empty (undefined otherwise); both cases are
modelled by the plain list.  The summary is absent exactly on the
short-circuit return of the entry-array check. -/
structure ValidationResult where
  valid : Bool
  errors : List String
  warnings : List String
  summary : Option ValidationSummary
deriving DecidableEq, Repr

/-- The coding system classification of the validator: a system URI string
containing "namaste" increments the NAMASTE counter, otherwise one
containing "icd" or "who" increments the ICD-11 counter.  The pair is
(namasteCodes, icd11Codes).  A coding without a string system field is not
counted. -/
def scanCoding (acc : Nat × Nat) (coding : Json) : Nat × Nat :=
  match coding.get "system" with
  | some (.str s) =>
      if strIncludes s "namaste" then (acc.1 + 1, acc.2)
      else if strIncludes s "icd" || strIncludes s "who" then (acc.1, acc.2 + 1)
      else acc
  | _ => acc

/-- Running state of the per-entry walk of the validator. -/
structure ScanState where
  resources : Nat
  conditions : Nat
  namasteCodes : Nat
  icd11Codes : Nat
  warnings : List String
deriving DecidableEq, Repr

/-- The coding list scanned for a Condition resource: the source guards
with a truthiness test on resource.code.coding and then iterates it as an
array. -/
def resourceCodings (res : Json) : Option (List Json) :=
  let c := (res.get "code").bind (fun j => j.get "coding")
  if jsTruthyOpt c then some ((c.getD Json.null).asArr) else none

/-- One iteration of the validator entry loop: a falsy resource yields a
warning and no counting; a Condition resource has its codings classified. -/
def scanEntry (st : ScanState) (entry : Json) : ScanState :=
  if !(jsTruthyOpt (entry.get "resource")) then
    { st with warnings := st.warnings ++ ["Entry missing resource"] }
  else
    let res := (entry.get "resource").getD Json.null
    let st1 := { st with resources := st.resources + 1 }
    if res.getStr "resourceType" == some "Condition" then
      let st2 := { st1 with conditions := st1.conditions + 1 }
      match resourceCodings res with
      | some codings =>
          let counts := codings.foldl scanCoding (st2.namasteCodes, st2.icd11Codes)
          { st2 with namasteCodes := counts.1, icd11Codes := counts.2 }
      | none => st2
    else st1

/-- The entry field of a bundle when it exists and is an array; the source
checks this with Array.isArray. -/
def entryArray (bundle : Json) : Option (List Json) :=
  match bundle.get "entry" with
  | some (.arr es) => some es
  | _ => none

/-- Diagnostic text of the dual-coding guidance warning. -/
def dualCodingWarning : String :=
  "Consider adding dual coding (both NAMASTE and ICD-11) for better interoperability"

/-- The structural errors recorded by the validator before the entry walk:
the resourceType must be the string Bundle (a falsy or different value
errors) and the type field must be truthy. -/
def bundleStructErrors (bundle : Json) : List String :=
  (if bundle.getStr "resourceType" == some "Bundle" then ([] : List String)
   else ["Invalid resourceType. Expected 'Bundle'"]) ++
  (if jsTruthyOpt (bundle.get "type") then [] else ["Bundle type is required"])

/-- TerminologyService.validateFHIRBundle of server/services/terminology.ts:
structural checks on resourceType, type and the entry array (a missing or
non-array entry returns immediately with only the errors so far and no
summary), a single pass over the entries counting resources, Conditions and
coding systems, the dual-coding guidance warning, and a verdict that is
valid exactly when no error was recorded. -/
def validateFHIRBundle (bundle : Json) : ValidationResult :=
  match entryArray bundle with
  | none =>
      { valid := false
        errors := bundleStructErrors bundle ++ ["Bundle must have an entry array"]
        warnings := []
        summary := none }
  | some es =>
      let st := es.foldl scanEntry ⟨0, 0, 0, 0, []⟩
      { valid := (bundleStructErrors bundle).isEmpty
        errors := bundleStructErrors bundle
        warnings :=
          st.warnings ++
            (if st.conditions > 0 && (st.namasteCodes == 0 || st.icd11Codes == 0) then
              [dualCodingWarning]
            else [])
        summary := some ⟨st.resources, st.conditions, st.namasteCodes, st.icd11Codes⟩ }

/-- A coding entry carrying system, code and display. -/
structure FHIRCoding where
  system : String
  code : String
  display : String
deriving DecidableEq, Repr

/-- A coding entry carrying only system and code (clinicalStatus and
category codings of the Condition builder). -/
structure CodingSC where
  system : String
  code : String
deriving DecidableEq, Repr

/-- A codeable concept holding system-and-code codings. -/
structure CodeableSC where
  coding : List CodingSC
deriving DecidableEq, Repr

/-- A codeable concept holding full codings. -/
structure CodeableFull where
  coding : List FHIRCoding
deriving DecidableEq, Repr

/-- A FHIR reference to a subject. -/
structure SubjectRef where
  reference : String
deriving DecidableEq, Repr

/-- The Condition resource produced by the builder. -/
structure ConditionRes where
  resourceType : String
  id : String
  clinicalStatus : CodeableSC
  category : List CodeableSC
  code : CodeableFull
  subject : SubjectRef
  recordedDate : String
deriving DecidableEq, Repr

/-- The NAMASTE code system URI hard-coded by the Condition builder. -/
def namasteSystemURI : String := "http://namaste.gov.in/CodeSystem"

/-- The WHO ICD-11 MMS URI hard-coded by the Condition builder for the
second coding. -/
def icd11SystemURI : String := "http://id.who.int/icd/release/11/mms"

/-- JavaScript truthiness of an optional string argument: undefined and the
empty string are falsy. -/
def jsTruthyStrOpt (s : Option String) : Bool :=
  match s with
  | none => false
  | some v => !(v == "")

/-- createFHIRCondition of the fhir helper module: the NAMASTE coding is
built first; a WHO ICD-11 MMS coding is appended when both icd11Code and
icd11Display are truthy.  The fresh UUID and the build timestamp are passed
in explicitly. -/
def createFHIRCondition (uuid now patientRef namasteCode namasteDisplay : String)
    (icd11Code icd11Display : Option String) : ConditionRes :=
  let coding := [(⟨namasteSystemURI, namasteCode, namasteDisplay⟩ : FHIRCoding)]
  let coding :=
    if jsTruthyStrOpt icd11Code && jsTruthyStrOpt icd11Display then
      coding ++ [⟨icd11SystemURI, icd11Code.getD "", icd11Display.getD ""⟩]
    else coding
  { resourceType := "Condition"
    id := uuid
    clinicalStatus := ⟨[⟨"http://terminology.hl7.org/CodeSystem/condition-clinical", "active"⟩]⟩
    category := [⟨[⟨"http://terminology.hl7.org/CodeSystem/condition-category", "problem-list-item"⟩]⟩]
    code := ⟨coding⟩
    subject := ⟨patientRef⟩
    recordedDate := now }

/-- JSON form of a system-and-code coding. -/
def codingSCToJson (c : CodingSC) : Json :=
  .obj [("system", .str c.system), ("code", .str c.code)]

/-- JSON form of a full coding. -/
def fhirCodingToJson (c : FHIRCoding) : Json :=
  .obj [("system", .str c.system), ("code", .str c.code), ("display", .str c.display)]

/-- JSON form of the built Condition: the object literal the builder
returns, viewed as a JSON value. -/
def ConditionRes.toJson (c : ConditionRes) : Json :=
  .obj [("resourceType", .str c.resourceType),
        ("id", .str c.id),
        ("clinicalStatus", .obj [("coding", .arr (c.clinicalStatus.coding.map codingSCToJson))]),
        ("category", .arr (c.category.map (fun cc => .obj [("coding", .arr (cc.coding.map codingSCToJson))]))),
        ("code", .obj [("coding", .arr (c.code.coding.map fhirCodingToJson))]),
        ("subject", .obj [("reference", .str c.subject.reference)]),
        ("recordedDate", .str c.recordedDate)]

/-- createFHIRBundle of the fhir helper module: wraps each resource in an
entry object; the fresh UUID and the build timestamp are passed in
explicitly. -/
def createFHIRBundle (uuid now bundleType : String) (entries : List Json) : Json :=
  .obj [("resourceType", .str "Bundle"),
        ("id", .str uuid),
        ("type", .str bundleType),
        ("timestamp", .str now),
        ("total", .num entries.length),
        ("entry", .arr (entries.map (fun r => .obj [("resource", r)])))]

/-- The expansion block of a built ValueSet. -/
structure VSExpansion where
  identifier : String
  timestamp : String
  total : Nat
  contains : List FHIRCoding
deriving DecidableEq, Repr

/-- The ValueSet resource produced by the builder. -/
structure ValueSetRes where
  resourceType : String
  id : String
  url : String
  status : String
  expansion : VSExpansion
deriving DecidableEq, Repr

/-- createFHIRValueSetExpansion of the fhir helper module: status active, a
urn:uuid identifier from a fresh UUID, the build timestamp, total equal to
the concept count and a contains array projecting each concept in input
order.  The id is the last URL segment suffixed with -expanded. -/
def createFHIRValueSetExpansion (uuid now url : String) (concepts : List FHIRCoding) : ValueSetRes :=
  { resourceType := "ValueSet"
    id := (url.splitOn "/").getLastD "" ++ "-expanded"
    url := url
    status := "active"
    expansion :=
      { identifier := "urn:uuid:" ++ uuid
        timestamp := now
        total := concepts.length
        contains := concepts.map (fun c => ⟨c.system, c.code, c.display⟩) } }

/-- A part of a translation match parameter: equivalence parts carry a
valueCode, concept parts carry a valueCoding. -/
structure TParamPart where
  name : String
  valueCode : Option String
  valueCoding : Option FHIRCoding
deriving DecidableEq, Repr

/-- A parameter of a Parameters resource as built by the translation
helpers: the result parameter carries valueBoolean, match parameters carry
parts. -/
structure TParam where
  name : String
  valueBoolean : Option Bool
  part : Option (List TParamPart)
deriving DecidableEq, Repr

/-- The Parameters resource produced by the translation builders. -/
structure ParametersRes where
  resourceType : String
  parameter : List TParam
deriving DecidableEq, Repr

/-- One translation match handed to createFHIRTranslationResult. -/
structure TransMapping where
  code : String
  system : String
  display : String
  equivalence : String
deriving DecidableEq, Repr

/-- The match parameter built for one mapping by
createFHIRTranslationResult. -/
def transMatchParam (m : TransMapping) : TParam :=
  ⟨"match", none,
    some [⟨"equivalence", some m.equivalence, none⟩,
          ⟨"concept", none, some ⟨m.system, m.code, m.display⟩⟩]⟩

/-- createFHIRTranslationResult of the fhir helper module: a leading result
parameter whose valueBoolean says whether any mapping exists, then one
match parameter per mapping in input order (the source and display
arguments do not appear in the output). -/
def createFHIRTranslationResult (sourceCode sourceSystem sourceDisplay : String)
    (mappings : List TransMapping) : ParametersRes :=
  let hasResults := decide (0 < mappings.length)
  let base := [(⟨"result", some hasResults, none⟩ : TParam)]
  let params := if hasResults then base ++ mappings.map transMatchParam else base
  ⟨"Parameters", params⟩

/-- A concept_mappings row of the terminology schema (src/shared schema):
confidence is a nullable text column holding percentage strings.  The
createdAt timestamp is not modelled. -/
structure MappingS where
  id : String
  sourceCode : String
  sourceSystem : String
  targetCode : String
  targetSystem : String
  equivalence : String
  confidence : Option String
deriving DecidableEq, Repr

/-- MemStorage.getMappingsForCode: walks the mapping store in insertion
order and keeps the rows whose sourceCode and sourceSystem both match; no
reordering is applied. -/
def getMappingsForCode (store : List MappingS) (code system : String) : List MappingS :=
  store.filter (fun m => m.sourceCode == code && m.sourceSystem == system)

/-- The match parameter built for one stored mapping by the ConceptMap
translate route of src/server/routes.ts: the target system is rewritten to
the TM2 URI when it is the ICD-11-TM2 tag, and the display is a synthetic
Mapped-from text. -/
def routeMatchParam (m : MappingS) : TParam :=
  ⟨"match", none,
    some [⟨"equivalence", some m.equivalence, none⟩,
          ⟨"concept", none,
            some ⟨if m.targetSystem == "ICD-11-TM2" then "http://icd.who.int/tm2" else m.targetSystem,
                  m.targetCode,
                  "Mapped from " ++ m.sourceCode⟩⟩]⟩

/-- The ConceptMap translate handler of src/server/routes.ts: looks up the
mappings with MemStorage.getMappingsForCode and emits a result parameter
followed by one match parameter per mapping in the order the lookup
returned them. -/
def conceptMapTranslateRoute (store : List MappingS) (code system : String) : ParametersRes :=
  let mappings := getMappingsForCode store code system
  let base := [(⟨"result", some (decide (0 < mappings.length)), none⟩ : TParam)]
  let params := if 0 < mappings.length then base ++ mappings.map routeMatchParam else base
  ⟨"Parameters", params⟩

/-- The target codes carried by the match parameters of a Parameters
resource, in parameter order. -/
def matchTargetCodes (p : ParametersRes) : List String :=
  p.parameter.filterMap (fun q =>
    if q.name == "match" then
      ((q.part.getD []).filterMap (fun pt => pt.valueCoding.map (fun c => c.code))).headD "" |> some
    else none)

/-- A concept_mappings row of the YogaVision schema: confidence is an
integer column (0-100).  Timestamps are not modelled. -/
structure MappingY where
  id : String
  sourceCode : String
  sourceSystem : String
  targetCode : String
  targetSystem : String
  equivalence : String
  confidence : Int
deriving DecidableEq, Repr

/-- Confidence-descending comparison between YogaVision mapping rows. -/
def confGE (a b : MappingY) : Prop := b.confidence ≤ a.confidence

instance : DecidableRel confGE :=
  fun a b => inferInstanceAs (Decidable (b.confidence ≤ a.confidence))

instance : IsTotal MappingY confGE :=
  ⟨fun a b => le_total b.confidence a.confidence⟩

instance : IsTrans MappingY confGE :=
  ⟨fun _ _ _ h1 h2 => le_trans h2 h1⟩

/-- DatabaseStorage.getConceptMappings of the YogaVision storage module:
filters by sourceCode and/or targetSystem (the source combines the two
conditions with OR when both are given) and orders the result by the
confidence column descending; the database ORDER BY is modelled by a sort
with respect to confGE. -/
def getConceptMappings (store : List MappingY) (sourceCode targetSystem : Option String) :
    List MappingY :=
  let filtered :=
    match sourceCode, targetSystem with
    | none, none => store
    | some sc, none => store.filter (fun m => m.sourceCode == sc)
    | none, some ts => store.filter (fun m => m.targetSystem == ts)
    | some sc, some ts => store.filter (fun m => m.sourceCode == sc || m.targetSystem == ts)
  filtered.insertionSort confGE

/-- A namaste_codes row of the YogaVision schema, restricted to the fields
the translate handler reads. -/
structure NamasteCodeRec where
  code : String
  display : String
  definition : Option String
deriving DecidableEq, Repr

/-- One AI mapping suggestion of the YogaVision gemini module. -/
structure TerminologyMapping where
  sourceCode : String
  sourceDisplay : String
  targetCode : String
  targetDisplay : String
  confidence : Int
  explanation : String
deriving DecidableEq, Repr

/-- generateConceptMappings of the YogaVision gemini module: the Gemini
call, JSON parse and field mapping are summarised by the outcome argument;
every failure path is caught and yields the empty list. -/
def generateConceptMappings (outcome : Except String (List TerminologyMapping)) :
    List TerminologyMapping :=
  match outcome with
  | .ok l => l
  | .error _ => []

/-- The ConceptMap $translate handler of the YogaVision routes: repository
lookup through DatabaseStorage.getConceptMappings first; only when that is
empty and the source system URI contains namaste.gov.in is the NAMASTE code
fetched and the suggestion provider consulted.  The Boolean records whether
the provider was invoked. -/
def translateResolve (store : List MappingY) (codes : List NamasteCodeRec)
    (provider : String → String → Option String → Except String (List TerminologyMapping))
    (sourceCode sourceSystem targetSystem : String) : List TransMapping × Bool :=
  let mappings := getConceptMappings store (some sourceCode) (some targetSystem)
  let translationResults :=
    mappings.map (fun m => (⟨m.targetCode, m.targetSystem, "", m.equivalence⟩ : TransMapping))
  if translationResults.length == 0 && strIncludes sourceSystem "namaste.gov.in" then
    match codes.find? (fun n => n.code == sourceCode) with
    | some nc =>
        let aiMappings := generateConceptMappings (provider nc.code nc.display nc.definition)
        (aiMappings.map (fun m =>
          (⟨m.targetCode, icd11SystemURI, m.targetDisplay, "equivalent"⟩ : TransMapping)), true)
    | none => (translationResults, false)
  else (translationResults, false)

/-- A terminology_codes row of the src/server schema, restricted to the
fields the search path reads. -/
structure TerminologyCodeRec where
  code : String
  display : String
  definition : Option String
  system : String
deriving DecidableEq, Repr

/-- One AI mapping suggestion in the shape the Gemini service of src/server
returns. -/
structure MappingSuggestion where
  targetCode : String
  targetDisplay : Option String
  equivalence : String
  confidence : String
  rationale : Option String
deriving DecidableEq, Repr

/-- The response shape of the Gemini mapping service. -/
structure MappingResponse where
  mappings : List MappingSuggestion
deriving DecidableEq, Repr

/-- GeminiService.getFallbackMappings: keyword patterns over the lowercased
prompt select a canned fallback suggestion; the final branch is a generic
manual-review mapping, so some suggestion is always produced. -/
def getFallbackMappings (prompt : String) : MappingResponse :=
  let lowerPrompt := prompt.toLower
  if strIncludes lowerPrompt "digestive" || strIncludes lowerPrompt "agni" then
    ⟨[⟨"TM2-DA01", some "Disorder of digestive qi transformation", "equivalent", "75%",
       some "Pattern-based fallback mapping for digestive disorders"⟩]⟩
  else if strIncludes lowerPrompt "respiratory" || strIncludes lowerPrompt "lung" then
    ⟨[⟨"TM2-RE01", some "Lung qi deficiency", "equivalent", "70%",
       some "Pattern-based fallback mapping for respiratory conditions"⟩]⟩
  else if strIncludes lowerPrompt "cardiac" || strIncludes lowerPrompt "heart" then
    ⟨[⟨"TM2-HE01", some "Heart qi stagnation", "equivalent", "70%",
       some "Pattern-based fallback mapping for cardiac conditions"⟩]⟩
  else
    ⟨[⟨"TM2-GEN01", some "General traditional medicine pattern", "inexact", "50%",
       some "Generic fallback mapping - manual review recommended"⟩]⟩

/-- GeminiService.getMappingSuggestions: the model call, the empty-response
check, the JSON parse and the structure validation are summarised by the
outcome argument; every failure path reaches the catch block, which returns
the pattern-keyword fallback for the prompt. -/
def getMappingSuggestions (outcome : Except String MappingResponse) (prompt : String) :
    MappingResponse :=
  match outcome with
  | .ok r => r
  | .error _ => getFallbackMappings prompt

/-- The prompt TerminologyService.getAIMappingSuggestions builds from a
NAMASTE code record (braces of the JSON template written as escapes). -/
def buildPrompt (c : TerminologyCodeRec) : String :=
  "\nGiven this NAMASTE terminology code:\nCode: " ++ c.code ++
  "\nDisplay: " ++ c.display ++
  "\nDefinition: " ++
  (match c.definition with
   | some d => if d == "" then "No definition provided" else d
   | none => "No definition provided") ++
  "\n\nFind the best ICD-11 TM2 (Traditional Medicine Module 2) mapping. Consider:\n" ++
  "1. Medical context and meaning\n2. Traditional medicine concepts\n3. Diagnostic equivalence\n\n" ++
  "Respond with potential mappings in this format:\n\x7b\n  \"mappings\": [\n    \x7b\n" ++
  "      \"targetCode\": \"TM2-XXX\",\n      \"targetDisplay\": \"ICD-11 TM2 term name\",\n" ++
  "      \"equivalence\": \"equivalent|wider|narrower|inexact\",\n" ++
  "      \"confidence\": \"percentage\",\n      \"rationale\": \"brief explanation\"\n" ++
  "    \x7d\n  ]\n\x7d\n"

/-- TerminologyService.getAIMappingSuggestions: queries the Gemini service
with the built prompt and turns each suggestion into a ConceptMapping row
tagged with the ICD-11-TM2 system; fresh ids are supplied by freshId. -/
def getAIMappingSuggestions (outcome : Except String MappingResponse) (freshId : Nat → String)
    (namasteCode : TerminologyCodeRec) : List MappingS :=
  let aiResponse := getMappingSuggestions outcome (buildPrompt namasteCode)
  aiResponse.mappings.enum.map (fun p =>
    { id := freshId p.1
      sourceCode := namasteCode.code
      sourceSystem := namasteCode.system
      targetCode := p.2.targetCode
      targetSystem := "ICD-11-TM2"
      equivalence := p.2.equivalence
      confidence := some p.2.confidence })

/-- One search result row of TerminologyService.searchTerminologies. -/
structure SearchResultRec where
  code : String
  display : String
  definition : Option String
  system : String
  mappings : List MappingS
deriving DecidableEq, Repr

/-- The per-code body of the TerminologyService.searchTerminologies loop:
existing mappings are fetched first, and AI suggestions are requested only
for a NAMASTE code when suggestions were asked for and no mapping exists.
The Boolean records whether the suggestion provider was invoked.  An empty
definition is normalised to absent (definition or-else undefined in the
source). -/
def searchOneCode (store : List MappingS) (includeSuggestions : Bool)
    (outcome : Except String MappingResponse) (freshId : Nat → String)
    (c : TerminologyCodeRec) : SearchResultRec × Bool :=
  let mappings := getMappingsForCode store c.code c.system
  let normDef := match c.definition with
    | some d => if d == "" then none else some d
    | none => none
  if c.system == "NAMASTE" && includeSuggestions && mappings.length == 0 then
    let aiMappings := getAIMappingSuggestions outcome freshId c
    (⟨c.code, c.display, normDef, c.system, mappings ++ aiMappings⟩, true)
  else
    (⟨c.code, c.display, normDef, c.system, mappings⟩, false)

/-- A mapping store holding three mappings for the same NAMASTE source code
with confidences 40, 90 and 70, in that insertion order. -/
def c1store : List MappingS :=
  [⟨"m1", "AYU-X", "NAMASTE", "TM2-A", "ICD-11-TM2", "equivalent", some "40%"⟩,
   ⟨"m2", "AYU-X", "NAMASTE", "TM2-B", "ICD-11-TM2", "equivalent", some "90%"⟩,
   ⟨"m3", "AYU-X", "NAMASTE", "TM2-C", "ICD-11-TM2", "wider", some "70%"⟩]

/-- The same three-mapping situation in the YogaVision store shape, with
integer confidences 40, 90 and 70 in insertion order. -/
def c1ystore : List MappingY :=
  [⟨"y1", "AYU-X", "NAMASTE", "TM2-A", "ICD-11-TM2", "equivalent", 40⟩,
   ⟨"y2", "AYU-X", "NAMASTE", "TM2-B", "ICD-11-TM2", "equivalent", 90⟩,
   ⟨"y3", "AYU-X", "NAMASTE", "TM2-C", "ICD-11-TM2", "wider", 70⟩]

/-- Claim C1 counterexample: on a store holding mappings with confidences
40, 90 and 70 for the same source code and system, the ConceptMap translate
route backed by MemStorage.getMappingsForCode returns the matches in
insertion order 40, 90, 70 (target codes TM2-A, TM2-B, TM2-C), not in the
confidence-descending order 90, 70, 40 the claim states. -/
theorem c1_translate_counterexample :
    matchTargetCodes (conceptMapTranslateRoute c1store "AYU-X" "NAMASTE") =
      ["TM2-A", "TM2-B", "TM2-C"] ∧
    matchTargetCodes (conceptMapTranslateRoute c1store "AYU-X" "NAMASTE") ≠
      ["TM2-B", "TM2-C", "TM2-A"] ∧
    (getMappingsForCode c1store "AYU-X" "NAMASTE").map (fun m => m.confidence) =
      [some "40%", some "90%", some "70%"] := by
  decide

/-- Claim C1 as amended: the YogaVision translate path, backed by
DatabaseStorage.getConceptMappings, returns the matched rows ordered by
confidence descending (a permutation of the filtered rows, sorted by
confGE); on confidences 40, 90, 70 it yields 90, 70, 40.  The
MemStorage-backed ConceptMap translate route instead preserves insertion
order, as witnessed by the concrete store. -/
theorem c1_confidence_ordering_amended (store : List MappingY) (sc ts : String) :
    List.Sorted confGE (getConceptMappings store (some sc) (some ts)) ∧
    (getConceptMappings store (some sc) (some ts)).Perm
      (store.filter (fun m => m.sourceCode == sc || m.targetSystem == ts)) ∧
    (getConceptMappings c1ystore (some "AYU-X") (some "ICD-11-TM2")).map (fun m => m.confidence) =
      [90, 70, 40] ∧
    matchTargetCodes (conceptMapTranslateRoute c1store "AYU-X" "NAMASTE") =
      ["TM2-A", "TM2-B", "TM2-C"] := by
  refine ⟨?_, ?_, by decide, by decide⟩
  · simpa [getConceptMappings] using
      List.sorted_insertionSort confGE (store.filter (fun m => m.sourceCode == sc || m.targetSystem == ts))
  · simpa [getConceptMappings] using
      List.perm_insertionSort confGE (store.filter (fun m => m.sourceCode == sc || m.targetSystem == ts))

/-- Claim C4 counterexample: createFHIRCondition called with a target code
but no target display yields a single-entry coding array, so supplying a
targetCode alone does not append a second coding entry. -/
theorem c4_condition_counterexample :
    (createFHIRCondition "u" "t" "Patient/p1" "AYU-DIG-001" "Agnimandya"
      (some "TM2-YM25") none).code.coding =
      [⟨namasteSystemURI, "AYU-DIG-001", "Agnimandya"⟩] ∧
    ¬ ((createFHIRCondition "u" "t" "Patient/p1" "AYU-DIG-001" "Agnimandya"
      (some "TM2-YM25") none).code.coding.length = 2) := by
  decide

/-- Claim C4 as amended: the NAMASTE coding is always the first coding
entry; a second entry is appended exactly when both the target code and the
target display are supplied and non-empty, and its system is the fixed WHO
ICD-11 MMS URI (the builder takes no target-system argument); hence the
coding array has exactly one or two entries. -/
theorem c4_dual_coding_amended (uuid now patientRef nc nd : String) (tc td : Option String) :
    (createFHIRCondition uuid now patientRef nc nd tc td).code.coding =
      (if jsTruthyStrOpt tc && jsTruthyStrOpt td then
        [⟨namasteSystemURI, nc, nd⟩, ⟨icd11SystemURI, tc.getD "", td.getD ""⟩]
      else [⟨namasteSystemURI, nc, nd⟩]) ∧
    (createFHIRCondition uuid now patientRef nc nd tc td).code.coding.head? =
      some ⟨namasteSystemURI, nc, nd⟩ := by
  constructor
  · unfold createFHIRCondition
    split <;> rfl
  · unfold createFHIRCondition
    split <;> rfl

/-- Claim C5: the collection Bundle built from the dual-coded Condition for
Patient/p1, AYU-DIG-001 Agnimandya with target TM2-YM25 Digestive disorder
passes the Bundle validator with a valid verdict, no errors or warnings,
and summary counts of one resource, one Condition, one NAMASTE coding and
one ICD-11 coding. -/
theorem c5_round_trip_build_validate :
    validateFHIRBundle
      (createFHIRBundle "u2" "t2" "collection"
        [(createFHIRCondition "u1" "t1" "Patient/p1" "AYU-DIG-001" "Agnimandya"
          (some "TM2-YM25") (some "Digestive disorder")).toJson]) =
      ⟨true, [], [], some ⟨1, 1, 1, 1⟩⟩ := by
  decide

/-- The entry-less bundle of the C6 scenario. -/
def c6bundle : Json :=
  Json.obj [("resourceType", Json.str "Bundle"), ("type", Json.str "collection")]

/-- Claim C6: whenever the entry field is absent or not an array the
validator returns (it is a total function) with no summary, an invalid
verdict and the entry-array error among its issues; the concrete bundle
with resourceType Bundle and type collection but no entry yields exactly
that one error and no summary. -/
theorem c6_entry_short_circuit (b : Json) (h : entryArray b = none) :
    (validateFHIRBundle b).summary = none ∧
    (validateFHIRBundle b).valid = false ∧
    "Bundle must have an entry array" ∈ (validateFHIRBundle b).errors ∧
    validateFHIRBundle c6bundle = ⟨false, ["Bundle must have an entry array"], [], none⟩ := by
  refine ⟨?_, ?_, ?_, by decide⟩ <;> simp [validateFHIRBundle, h]

/-- Witness for C6: the hypothesis holds at the concrete entry-less bundle
and the theorem applies there. -/
theorem c6_entry_short_circuit_witness :
    entryArray c6bundle = none ∧ (validateFHIRBundle c6bundle).summary = none :=
  ⟨rfl, (c6_entry_short_circuit c6bundle rfl).1⟩

/-- The single-Condition bundle with only a NAMASTE coding of the C7
scenario. -/
def c7bundle : Json :=
  createFHIRBundle "u2" "t2" "collection"
    [(createFHIRCondition "u1" "t1" "Patient/p1" "AYU-DIG-001" "Agnimandya" none none).toJson]

/-- Claim C7: when the walk counted at least one Condition and one of the
two coding counters is zero, the dual-coding warning is emitted, and the
verdict is valid exactly when the error list is empty (warnings never
affect it); the concrete NAMASTE-only bundle is valid with exactly one
warning and summary counts 1, 1, 1, 0. -/
theorem c7_dual_coding_warning (b : Json) (s : ValidationSummary)
    (hs : (validateFHIRBundle b).summary = some s)
    (hc : 0 < s.conditions)
    (hz : s.namasteCodes = 0 ∨ s.icd11Codes = 0) :
    dualCodingWarning ∈ (validateFHIRBundle b).warnings ∧
    ((validateFHIRBundle b).valid = true ↔ (validateFHIRBundle b).errors = []) ∧
    validateFHIRBundle c7bundle = ⟨true, [], [dualCodingWarning], some ⟨1, 1, 1, 0⟩⟩ := by
  refine ⟨?_, ?_, by decide⟩
  · cases he : entryArray b with
    | none => simp [validateFHIRBundle, he] at hs
    | some es =>
        simp only [validateFHIRBundle, he] at hs ⊢
        rw [Option.some_inj] at hs
        subst hs
        have hcond :
            (decide ((es.foldl scanEntry ⟨0, 0, 0, 0, []⟩).conditions > 0) &&
              ((es.foldl scanEntry ⟨0, 0, 0, 0, []⟩).namasteCodes == 0 ||
               (es.foldl scanEntry ⟨0, 0, 0, 0, []⟩).icd11Codes == 0)) = true := by
          rcases hz with h | h <;> simp_all
        simp [hcond]
  · cases he : entryArray b with
    | none => simp [validateFHIRBundle, he]
    | some es => simp [validateFHIRBundle, he, List.isEmpty_iff]

/-- Witness for C7: the hypotheses hold at the concrete NAMASTE-only bundle
and the theorem applies there. -/
theorem c7_dual_coding_warning_witness :
    (validateFHIRBundle c7bundle).summary = some ⟨1, 1, 1, 0⟩ ∧
    dualCodingWarning ∈ (validateFHIRBundle c7bundle).warnings :=
  ⟨by decide,
   (c7_dual_coding_warning c7bundle ⟨1, 1, 1, 0⟩ (by decide) (by decide) (Or.inr rfl)).1⟩

/-- Claim C8: the built Parameters resource is the leading result parameter
(valueBoolean true exactly when some mapping exists) followed by one match
parameter per mapping in input order; each match parameter is the
equivalence valueCode part followed by the concept valueCoding part; an
empty mapping list yields the result-false parameter alone. -/
theorem c8_translation_parameters (sourceCode sourceSystem sourceDisplay : String)
    (mappings : List TransMapping) :
    (createFHIRTranslationResult sourceCode sourceSystem sourceDisplay mappings).parameter =
      ⟨"result", some (decide (0 < mappings.length)), none⟩ :: mappings.map transMatchParam ∧
    (∀ m : TransMapping, transMatchParam m =
      ⟨"match", none, some [⟨"equivalence", some m.equivalence, none⟩,
                            ⟨"concept", none, some ⟨m.system, m.code, m.display⟩⟩]⟩) ∧
    (mappings = [] →
      (createFHIRTranslationResult sourceCode sourceSystem sourceDisplay mappings).parameter =
        [⟨"result", some false, none⟩]) := by
  refine ⟨?_, fun m => rfl, ?_⟩
  · cases mappings with
    | nil => rfl
    | cons a as => simp [createFHIRTranslationResult]
  · intro h
    subst h
    rfl

/-- Claim C9: the built ValueSet always has status active, total equal to
the concept count, a contains array projecting the concepts in input order
(empty input yields total zero and an empty array), and two builds over the
same url and concepts agree on every field except the expansion identifier
and timestamp. -/
theorem c9_valueset_expansion (u1 n1 u2 n2 url : String) (concepts : List FHIRCoding) :
    (createFHIRValueSetExpansion u1 n1 url concepts).status = "active" ∧
    (createFHIRValueSetExpansion u1 n1 url concepts).expansion.total = concepts.length ∧
    (createFHIRValueSetExpansion u1 n1 url concepts).expansion.contains =
      concepts.map (fun c => ⟨c.system, c.code, c.display⟩) ∧
    (concepts = [] →
      (createFHIRValueSetExpansion u1 n1 url concepts).expansion.total = 0 ∧
      (createFHIRValueSetExpansion u1 n1 url concepts).expansion.contains = []) ∧
    (createFHIRValueSetExpansion u2 n2 url concepts).expansion.contains =
      (createFHIRValueSetExpansion u1 n1 url concepts).expansion.contains ∧
    (createFHIRValueSetExpansion u2 n2 url concepts).expansion.total =
      (createFHIRValueSetExpansion u1 n1 url concepts).expansion.total ∧
    (createFHIRValueSetExpansion u2 n2 url concepts).resourceType =
      (createFHIRValueSetExpansion u1 n1 url concepts).resourceType ∧
    (createFHIRValueSetExpansion u2 n2 url concepts).id =
      (createFHIRValueSetExpansion u1 n1 url concepts).id ∧
    (createFHIRValueSetExpansion u2 n2 url concepts).url =
      (createFHIRValueSetExpansion u1 n1 url concepts).url ∧
    (createFHIRValueSetExpansion u2 n2 url concepts).status =
      (createFHIRValueSetExpansion u1 n1 url concepts).status := by
  exact ⟨rfl, rfl, rfl, fun h => by subst h; exact ⟨rfl, rfl⟩, rfl, rfl, rfl, rfl, rfl, rfl⟩

/-- A provider stub that always fails, as the spec suggests for testing the
repository-first policy. -/
def throwingProvider : String → String → Option String → Except String (List TerminologyMapping) :=
  fun _ _ _ => Except.error "provider invoked"

/-- A store holding one mapping for the source code AYU-X. -/
def c2store : List MappingY :=
  [⟨"y9", "AYU-X", "NAMASTE", "TM2-B", "ICD-11-TM2", "equivalent", 90⟩]

/-- Claim C2: when the repository lookup yields at least one mapping, the
suggestion provider is not invoked by the translate handler, nor by the
per-code search body; conversely, the translate handler invokes the
provider only when the lookup is empty and the source system URI contains
namaste.gov.in. -/
theorem c2_repository_first (store : List MappingY) (codes : List NamasteCodeRec)
    (provider : String → String → Option String → Except String (List TerminologyMapping))
    (sc ss ts : String)
    (h : getConceptMappings store (some sc) (some ts) ≠ []) :
    (translateResolve store codes provider sc ss ts).2 = false ∧
    (∀ (storeS : List MappingS) (incl : Bool) (outcome : Except String MappingResponse)
        (fid : Nat → String) (c : TerminologyCodeRec),
        getMappingsForCode storeS c.code c.system ≠ [] →
        (searchOneCode storeS incl outcome fid c).2 = false) ∧
    (∀ (store2 : List MappingY) (codes2 : List NamasteCodeRec)
        (provider2 : String → String → Option String → Except String (List TerminologyMapping))
        (sc2 ss2 ts2 : String),
        (translateResolve store2 codes2 provider2 sc2 ss2 ts2).2 = true →
        getConceptMappings store2 (some sc2) (some ts2) = [] ∧
        strIncludes ss2 "namaste.gov.in" = true) := by
  refine ⟨?_, ?_, ?_⟩
  · have h0 : (getConceptMappings store (some sc) (some ts)).length ≠ 0 := by
      simpa [List.length_eq_zero] using h
    simp [translateResolve, h0]
  · intro storeS incl outcome fid c hne
    have h0 : (getMappingsForCode storeS c.code c.system).length ≠ 0 := by
      simpa [List.length_eq_zero] using hne
    simp [searchOneCode, h0]
  · intro store2 codes2 provider2 sc2 ss2 ts2 htrue
    simp only [translateResolve] at htrue
    split at htrue
    · next hcond =>
        rw [Bool.and_eq_true] at hcond
        have h1 := hcond.1
        simp only [List.length_map, beq_iff_eq, List.length_eq_zero] at h1
        exact ⟨h1, hcond.2⟩
    · next hcond => simp at htrue

/-- Witness for C2: the store holds a mapping for AYU-X, and the translate
handler run with a throwing provider stub does not invoke it. -/
theorem c2_repository_first_witness :
    getConceptMappings c2store (some "AYU-X") (some "ICD-11-TM2") ≠ [] ∧
    (translateResolve c2store [] throwingProvider
      "AYU-X" "http://namaste.gov.in/CodeSystem" "ICD-11-TM2").2 = false :=
  ⟨by decide,
   (c2_repository_first c2store [] throwingProvider
      "AYU-X" "http://namaste.gov.in/CodeSystem" "ICD-11-TM2" (by decide)).1⟩

/-- Helper: every branch of the pattern-keyword fallback produces at least
one suggestion. -/
theorem getFallbackMappings_mappings_ne_nil (prompt : String) :
    (getFallbackMappings prompt).mappings ≠ [] := by
  unfold getFallbackMappings
  dsimp only
  split
  · simp
  · split
    · simp
    · split <;> simp

/-- An unmapped NAMASTE code record used to exercise the failure path. -/
def c3code : TerminologyCodeRec := ⟨"AYU-XYZ", "Mystery", none, "NAMASTE"⟩

/-- A namaste_codes table holding the code the C3 scenario translates. -/
def c3codes : List NamasteCodeRec := [⟨"AYU-X", "Mystery term", none⟩]

/-- Claim C3: a failing suggestion provider never propagates.  On the
search path the AI-suggestion step returns the pattern-keyword fallback
suggestion set (which is never empty) mapped into concept-mapping rows; on
the translate path a throwing provider yields the empty mapping list and
the operation still produces the result-false Parameters resource. -/
theorem c3_graceful_degradation (e : String) (fid : Nat → String) (c : TerminologyCodeRec)
    (store : List MappingY) (codes : List NamasteCodeRec)
    (provider : String → String → Option String → Except String (List TerminologyMapping))
    (sc ss ts : String)
    (hfail : ∀ a b d, ∃ msg, provider a b d = Except.error msg)
    (hempty : getConceptMappings store (some sc) (some ts) = []) :
    getAIMappingSuggestions (Except.error e) fid c =
      (getFallbackMappings (buildPrompt c)).mappings.enum.map (fun p =>
        ⟨fid p.1, c.code, c.system, p.2.targetCode, "ICD-11-TM2",
         p.2.equivalence, some p.2.confidence⟩) ∧
    (getFallbackMappings (buildPrompt c)).mappings ≠ [] ∧
    (translateResolve store codes provider sc ss ts).1 = [] ∧
    (createFHIRTranslationResult sc ss ""
        (translateResolve store codes provider sc ss ts).1).parameter =
      [⟨"result", some false, none⟩] := by
  have h3 : (translateResolve store codes provider sc ss ts).1 = [] := by
    simp only [translateResolve, hempty, List.map_nil, List.length_nil]
    split
    · cases hf : codes.find? (fun n => n.code == sc) with
      | none => rfl
      | some nc =>
          obtain ⟨msg, hmsg⟩ := hfail nc.code nc.display nc.definition
          simp [hf, hmsg, generateConceptMappings]
    · rfl
  refine ⟨rfl, getFallbackMappings_mappings_ne_nil _, h3, ?_⟩
  rw [h3]
  rfl

/-- Witness for C3: the throwing provider satisfies the failure hypothesis,
the empty store satisfies the empty-lookup hypothesis, and the theorem
applies at the concrete unmapped NAMASTE code. -/
theorem c3_graceful_degradation_witness :
    (translateResolve [] c3codes throwingProvider
      "AYU-X" "http://namaste.gov.in/CodeSystem" "ICD-11-TM2").1 = [] ∧
    (createFHIRTranslationResult "AYU-X" "http://namaste.gov.in/CodeSystem" ""
        (translateResolve [] c3codes throwingProvider
          "AYU-X" "http://namaste.gov.in/CodeSystem" "ICD-11-TM2").1).parameter =
      [⟨"result", some false, none⟩] :=
  ⟨(c3_graceful_degradation "boom" (fun _ => "ai-0") c3code [] c3codes throwingProvider
      "AYU-X" "http://namaste.gov.in/CodeSystem" "ICD-11-TM2"
      (fun _ _ _ => ⟨"provider invoked", rfl⟩) rfl).2.2.1,
   (c3_graceful_degradation "boom" (fun _ => "ai-0") c3code [] c3codes throwingProvider
      "AYU-X" "http://namaste.gov.in/CodeSystem" "ICD-11-TM2"
      (fun _ _ _ => ⟨"provider invoked", rfl⟩) rfl).2.2.2⟩

/-- The number of codings the validator walk scans for one entry: zero for
a falsy resource or a non-Condition, the coding array length otherwise
(mirroring the guards of scanEntry). -/
def entryCodingCount (entry : Json) : Nat :=
  if !(jsTruthyOpt (entry.get "resource")) then 0
  else
    let res := (entry.get "resource").getD Json.null
    if res.getStr "resourceType" == some "Condition" then
      match resourceCodings res with
      | some codings => codings.length
      | none => 0
    else 0

/-- The total number of codings the validator scans over a bundle. -/
def codingsScanned (b : Json) : Nat :=
  match entryArray b with
  | some es => (es.map entryCodingCount).sum
  | none => 0

/-- Helper: one classification step leaves the counters unchanged or
increments exactly one of the two by one. -/
theorem scanCoding_cases (acc : Nat × Nat) (coding : Json) :
    scanCoding acc coding = acc ∨ scanCoding acc coding = (acc.1 + 1, acc.2) ∨
    scanCoding acc coding = (acc.1, acc.2 + 1) := by
  unfold scanCoding
  split
  · split
    · right; left; rfl
    · split
      · right; right; rfl
      · left; rfl
  · left; rfl

/-- Helper: one classification step grows the counter sum by at most one. -/
theorem scanCoding_sum_le (acc : Nat × Nat) (coding : Json) :
    (scanCoding acc coding).1 + (scanCoding acc coding).2 ≤ acc.1 + acc.2 + 1 := by
  rcases scanCoding_cases acc coding with h | h | h <;> rw [h] <;> omega

/-- Helper: scanning a coding list grows the counter sum by at most its
length. -/
theorem foldl_scanCoding_le (codings : List Json) : ∀ acc : Nat × Nat,
    (codings.foldl scanCoding acc).1 + (codings.foldl scanCoding acc).2 ≤
      acc.1 + acc.2 + codings.length := by
  induction codings with
  | nil => intro acc; simp
  | cons c cs ih =>
      intro acc
      have h1 := scanCoding_sum_le acc c
      have h2 := ih (scanCoding acc c)
      simp only [List.foldl_cons, List.length_cons]
      omega

/-- Helper: one entry grows the two coding counters by at most the number
of codings it contributes. -/
theorem scanEntry_counts_le (st : ScanState) (entry : Json) :
    (scanEntry st entry).namasteCodes + (scanEntry st entry).icd11Codes ≤
      st.namasteCodes + st.icd11Codes + entryCodingCount entry := by
  unfold scanEntry entryCodingCount
  dsimp only
  split
  · simp
  · split
    · split
      · next codings _ =>
          have := foldl_scanCoding_le codings (st.namasteCodes, st.icd11Codes)
          simpa using this
      · simp
    · simp

/-- Helper: the entry walk grows the two coding counters by at most the
total number of codings scanned. -/
theorem foldl_scanEntry_le (es : List Json) : ∀ st : ScanState,
    ((es.foldl scanEntry st).namasteCodes + (es.foldl scanEntry st).icd11Codes) ≤
      st.namasteCodes + st.icd11Codes + (es.map entryCodingCount).sum := by
  induction es with
  | nil => intro st; simp
  | cons e es ih =>
      intro st
      have h1 := scanEntry_counts_le st e
      have h2 := ih (scanEntry st e)
      simp only [List.foldl_cons, List.map_cons, List.sum_cons]
      omega

/-- Claim C10: each coding classified by the validator increments at most
one counter, a system URI containing namaste takes precedence and counts
only toward the NAMASTE counter, and consequently the summary counters sum
to at most the number of codings scanned. -/
theorem c10_coding_classification (b : Json) (s : ValidationSummary)
    (hs : (validateFHIRBundle b).summary = some s) :
    s.namasteCodes + s.icd11Codes ≤ codingsScanned b ∧
    (∀ (n i : Nat) (coding : Json) (sys : String),
      coding.get "system" = some (Json.str sys) →
      strIncludes sys "namaste" = true →
      scanCoding (n, i) coding = (n + 1, i)) ∧
    (∀ (acc : Nat × Nat) (coding : Json),
      scanCoding acc coding = acc ∨ scanCoding acc coding = (acc.1 + 1, acc.2) ∨
      scanCoding acc coding = (acc.1, acc.2 + 1)) := by
  refine ⟨?_, ?_, scanCoding_cases⟩
  · cases he : entryArray b with
    | none => simp [validateFHIRBundle, he] at hs
    | some es =>
        simp only [validateFHIRBundle, he] at hs
        rw [Option.some_inj] at hs
        subst hs
        have := foldl_scanEntry_le es ⟨0, 0, 0, 0, []⟩
        simpa [codingsScanned, he] using this
  · intro n i coding sys hsys hinc
    unfold scanCoding
    rw [hsys]
    simp [hinc]

/-- A bundle whose single Condition coding has a system URI containing
namaste, icd and who at once: it is counted once, toward NAMASTE only. -/
def c10bundle : Json :=
  Json.obj [("resourceType", Json.str "Bundle"), ("type", Json.str "collection"),
    ("entry", Json.arr [Json.obj [("resource", Json.obj [
      ("resourceType", Json.str "Condition"),
      ("code", Json.obj [("coding", Json.arr [
        Json.obj [("system", Json.str "http://namaste-icd-who.example/CodeSystem")]])])])]])]

/-- Witness for C10: on the bundle whose only coding mentions namaste, icd
and who, the summary counts it once (toward NAMASTE) and the theorem
applies. -/
theorem c10_coding_classification_witness :
    (validateFHIRBundle c10bundle).summary = some ⟨1, 1, 1, 0⟩ ∧
    (1 : Nat) + 0 ≤ codingsScanned c10bundle :=
  ⟨by decide, (c10_coding_classification c10bundle ⟨1, 1, 1, 0⟩ (by decide)).1⟩

/-- Witness for C8: applying the theorem at the empty mapping list yields
the lone result-false parameter. -/
theorem c8_translation_parameters_witness :
    (createFHIRTranslationResult "AYU-X" "NAMASTE" "Agnimandya" []).parameter =
      [⟨"result", some false, none⟩] :=
  (c8_translation_parameters "AYU-X" "NAMASTE" "Agnimandya" []).2.2 rfl

/-- Witness for C9: applying the theorem at the empty concept list yields
total zero and an empty contains array. -/
theorem c9_valueset_expansion_witness :
    (createFHIRValueSetExpansion "u1" "n1" "http://example.org/vs/test" []).expansion.total = 0 ∧
    (createFHIRValueSetExpansion "u1" "n1" "http://example.org/vs/test" []).expansion.contains = [] :=
  (c9_valueset_expansion "u1" "n1" "u2" "n2" "http://example.org/vs/test" []).2.2.2.1 rfl
